import Mathlib

/-!
Verification of `src/club_api.py` (GeoguessrAPI-clubs).

The program fetches the membership roster of a club from the GeoGuessr API,
fetches per-member stats and peak rating, flattens the combined records
into single-level dictionaries, and exports them to CSV.

We shallowly embed the Python code.  Python `dict`s with string keys are
modelled as association lists `List (String × JVal)` in insertion order;
a list built by Python `dict(...)` has pairwise distinct keys.  JSON
values are the inductive type `JVal`.  Python exceptions are modelled
with `Except String`.
-/

set_option autoImplicit false

/-- A JSON value, as produced by `resp.json()` in the Python source. -/
inductive JVal where
  | null
  | bool (b : Bool)
  | num (n : Int)
  | str (s : String)
  | arr (elems : List JVal)
  | obj (fields : List (String × JVal))

namespace JVal

/-- Python truthiness of a JSON value (`if not CLUB_ID:` etc.):
`None`, `False`, `0`, `""`, `[]` and `{}` are falsy. -/
def truthy : JVal → Bool
  | .null => false
  | .bool b => b
  | .num n => n != 0
  | .str s => s != ""
  | .arr l => !l.isEmpty
  | .obj l => !l.isEmpty

/-- Whether the value is a Python `dict` (`isinstance(v, dict)`). -/
def isObj : JVal → Bool
  | .obj _ => true
  | _ => false

end JVal

/-- Model of `d.get(key)` on a Python dict in insertion order: the binding of the
first (in a real dict, only) occurrence of the key. -/
def dictGet : List (String × JVal) → String → Option JVal
  | [], _ => none
  | (k, v) :: rest, key => if k = key then some v else dictGet rest key

/-- The value that survives for key `k` after inserting the pairs of `l`
(in order) into a dict that currently maps `k` to `dflt`: the last
occurrence of `k` wins. -/
def lastVal (k : String) (dflt : JVal) : List (String × JVal) → JVal
  | [] => dflt
  | (k', v) :: rest => lastVal k (if k' = k then v else dflt) rest

/-- Python `dict(items)`: each key keeps the position of its first
occurrence and the value of its last occurrence.  This is also the
semantics of `{**a, **b, ...}` applied to `a ++ b ++ ...`. -/
def dictOfItems : List (String × JVal) → List (String × JVal)
  | [] => []
  | (k, v) :: rest =>
      (k, lastVal k v rest) :: dictOfItems (rest.filter (fun p => p.1 ≠ k))
termination_by l => l.length
decreasing_by
  simp only [List.length_cons]
  exact Nat.lt_succ_of_le (List.length_filter_le _ _)

/-- Model of `new_key = f"{parent_key}{sep}{k}" if parent_key else k`
(an empty `parent_key` string is falsy in Python). -/
def joinKey (parent_key sep k : String) : String :=
  if parent_key = "" then k else parent_key ++ sep ++ k

/-- The `items` list built by the loop of `ClubMember.flatten_dict`:
for each pair, recurse on nested dicts with the dotted key as the new
prefix, otherwise emit the pair.  The Python recursion returns a dict
(`dict(items)`), whose `.items()` are spliced in, hence the inner
`dictOfItems`. -/
def flattenItems (sep : String) : String → List (String × JVal) → List (String × JVal)
  | _, [] => []
  | parent_key, (k, v) :: rest =>
      (match v with
       | .obj sub => dictOfItems (flattenItems sep (joinKey parent_key sep k) sub)
       | v => [(joinKey parent_key sep k, v)])
      ++ flattenItems sep parent_key rest
termination_by _ l => sizeOf l
decreasing_by
  all_goals simp only [List.cons.sizeOf_spec, Prod.mk.sizeOf_spec, JVal.obj.sizeOf_spec]
  · omega
  · omega

/-- Model of `ClubMember.flatten_dict(d, parent_key, sep)`. -/
def flatten_dict (d : List (String × JVal)) (parent_key : String := "") (sep : String := ".") :
    List (String × JVal) :=
  dictOfItems (flattenItems sep parent_key d)

/-! ## The authenticated client (`GeoGuessrClubAPI`) -/

/-- An HTTP response, as seen by the Python code: a status code and the
parsed JSON body (`resp.json()`). -/
structure HttpResponse where
  status_code : Nat
  body : JVal

/-- The `requests.Session` built by `GeoGuessrClubAPI.__init__`:
cookies are (name, value, domain) triples, headers are (name, value). -/
structure Session where
  cookies : List (String × String × String)
  headers : List (String × String)
deriving DecidableEq

namespace GeoGuessrClubAPI

def BASE_URL : String := "https://www.geoguessr.com/api"

/-- Python truthiness of an `Optional[str]`: `None` and `""` are falsy
(`if not ncfa_token:`). -/
def strOptFalsy : Option String → Bool
  | none => true
  | some s => s == ""

/-- Model of `GeoGuessrClubAPI.__init__(ncfa_token)`.  Here `env_token` is
`os.getenv("NCFA_TOKEN")`.  On success the session is created with the
`_ncfa` cookie and the fixed headers; on failure a `ValueError`
(named `ConfigurationError` by the spec) is raised and no session exists. -/
def init (ncfa_token : Option String) (env_token : Option String) : Except String Session :=
  let tok := if strOptFalsy ncfa_token then env_token else ncfa_token
  match tok with
  | none => .error "NCFA_TOKEN must be provided or set in environment variables"
  | some t =>
      if t == "" then
        .error "NCFA_TOKEN must be provided or set in environment variables"
      else
        .ok { cookies := [("_ncfa", t, "www.geoguessr.com")],
              headers := [("User-Agent", "GeoStatsClub/1.0"), ("Accept", "application/json")] }

/-- Model of `GeoGuessrClubAPI._get(path, raise_on_error)`, as a function of the
response the remote service gives for `BASE_URL + path`: returns the
parsed body on 200, raises on non-200 when `raise_on_error`, and
returns `None` otherwise. -/
def _get (path : String) (resp : HttpResponse) (raise_on_error : Bool := true) :
    Except String (Option JVal) :=
  if resp.status_code = 200 then
    .ok (some resp.body)
  else if raise_on_error then
    .error ("Failed to fetch " ++ path ++ ": HTTP " ++ toString resp.status_code)
  else
    .ok none

/-- Model of `get_profile()`. -/
def get_profile (resp : HttpResponse) : Except String (Option JVal) :=
  _get "/v3/profiles" resp

/-- Model of `get_club_members(club_id)`. -/
def get_club_members (club_id : String) (resp : HttpResponse) : Except String (Option JVal) :=
  _get ("/v4/clubs/" ++ club_id ++ "/members") resp

/-- Model of `get_user_stats(user_id)`. -/
def get_user_stats (user_id : String) (resp : HttpResponse) : Except String (Option JVal) :=
  _get ("/v4/stats/users/" ++ user_id) resp false

/-- Model of `get_user_peak_rating(user_id)`. -/
def get_user_peak_rating (user_id : String) (resp : HttpResponse) : Except String (Option JVal) :=
  _get ("/v4/ranked-system/peak-rating/" ++ user_id) resp false

end GeoGuessrClubAPI

/-! ## The member record (`ClubMember`) -/

/-- A `ClubMember` after construction: `raw_membership` and `raw_user`
are dicts, `user_id` is whatever `raw_user.get("userId", "")` returned
(a `JVal`, defaulting to the empty string), and `stats` / `peak_rating`
start as empty dicts. -/
structure ClubMember where
  raw_membership : List (String × JVal)
  raw_user : List (String × JVal)
  user_id : JVal
  stats : List (String × JVal)
  peak_rating : List (String × JVal)

namespace ClubMember

/-- Model of `ClubMember.__init__(data)`.  The dict comprehension for
`raw_membership` keeps every pair except key `"user"`;
`data.get("user", {})` defaults to the empty dict.  If the value stored
at `"user"` is present but not a dict, `self.raw_user.get(...)` raises
`AttributeError`, so construction fails (`none`). -/
def init (data : List (String × JVal)) : Option ClubMember :=
  let raw_membership := dictOfItems (data.filter (fun p => p.1 != "user"))
  match dictGet data "user" with
  | none =>
      some { raw_membership := raw_membership, raw_user := [],
             user_id := (dictGet [] "userId").getD (.str ""),
             stats := [], peak_rating := [] }
  | some (.obj u) =>
      some { raw_membership := raw_membership, raw_user := u,
             user_id := (dictGet u "userId").getD (.str ""),
             stats := [], peak_rating := [] }
  | some _ => none

/-- The `nick` property: `raw_user.get("nick", "")`. -/
def nick (m : ClubMember) : JVal :=
  (dictGet m.raw_user "nick").getD (.str "")

/-- Model of `update_stats(stats)`, i.e. `self.stats = stats or {}` — a `None` (or
empty) argument leaves an empty dict. -/
def update_stats (m : ClubMember) (stats : Option (List (String × JVal))) : ClubMember :=
  { m with stats := match stats with
                    | none => []
                    | some s => s }

/-- Model of `update_peak_rating(rating)`, i.e. `self.peak_rating = rating or {}`. -/
def update_peak_rating (m : ClubMember) (rating : Option (List (String × JVal))) : ClubMember :=
  { m with peak_rating := match rating with
                          | none => []
                          | some r => r }

/-- Model of `to_dict()`: flatten the four sections under their prefixes and
merge them with `{**base_user, **base_membership, **flat_stats,
**flat_rating}` (insertion in that order, later bindings win). -/
def to_dict (m : ClubMember) : List (String × JVal) :=
  let base_user := flatten_dict m.raw_user "user"
  let base_membership := flatten_dict m.raw_membership "membership"
  let flat_stats := flatten_dict m.stats "stats"
  let flat_rating := flatten_dict m.peak_rating "peakRating"
  dictOfItems (base_user ++ base_membership ++ flat_stats ++ flat_rating)

end ClubMember

/-! ## The orchestrator (`__main__` block) -/

/-- Python `repr` of a JSON value, used when a value is interpolated
into an f-string path (quote escaping inside strings is not exercised
by any path the program builds). -/
def JVal.pyRepr : JVal → String
  | .null => "None"
  | .bool b => if b then "True" else "False"
  | .num n => toString n
  | .str s => "\x27" ++ s ++ "\x27"
  | .arr l => "[" ++ String.intercalate ", " (l.attach.map (fun x => x.1.pyRepr)) ++ "]"
  | .obj l =>
      "\x7b" ++
        String.intercalate ", "
          (l.attach.map (fun p => "\x27" ++ p.1.1 ++ "\x27: " ++ p.1.2.pyRepr)) ++
      "\x7d"
termination_by v => sizeOf v
decreasing_by
  · have h := List.sizeOf_lt_of_mem x.2
    simp only [JVal.arr.sizeOf_spec]
    omega
  · have h := List.sizeOf_lt_of_mem p.2
    obtain ⟨⟨a, b⟩, hp⟩ := p
    simp only [Prod.mk.sizeOf_spec] at h ⊢
    simp only [JVal.obj.sizeOf_spec]
    omega

/-- Python `str` as used by f-string interpolation: a string stands for
itself, every other value prints as its `repr`. -/
def JVal.pyStr : JVal → String
  | .str s => s
  | v => v.pyRepr

/-- Model of `d.get(key, default)` where the receiver is an arbitrary JSON value:
an `AttributeError` is raised when the receiver is not a dict. -/
def pyDictGetD (v : JVal) (key : String) (dflt : JVal) : Except String JVal :=
  match v with
  | .obj fields => .ok ((dictGet fields key).getD dflt)
  | _ => .error "AttributeError: object has no attribute get"

/-- Model of `profile.get("user", {}).get("club", {}).get("clubId")` — the
one-argument `get` defaults to `None`. -/
def extractClubId (profile : JVal) : Except String JVal := do
  let u ← pyDictGetD profile "user" (.obj [])
  let c ← pyDictGetD u "club" (.obj [])
  pyDictGetD c "clubId" .null

/-- Model of `for m in members_json`: iterating a JSON value the Python way —
lists yield their elements, dicts their keys, strings their characters;
other values raise `TypeError`. -/
def iterMembers : JVal → Except String (List JVal)
  | .arr l => .ok l
  | .obj fields => .ok (fields.map (fun p => JVal.str p.1))
  | .str s => .ok (s.data.map (fun c => JVal.str (String.mk [c])))
  | _ => .error "TypeError: object is not iterable"

/-- Model of `ClubMember(m)` on a JSON value: `data.items()` requires a dict. -/
def ClubMember.initOfJson : JVal → Option ClubMember
  | .obj fields => ClubMember.init fields
  | _ => none

/-- Model of `[ClubMember(m) for m in members_json]` once the iterable is known:
fails (`none`) as soon as one construction raises. -/
def constructMembers : List JVal → Option (List ClubMember)
  | [] => some []
  | v :: rest => do
      let m ← ClubMember.initOfJson v
      let ms ← constructMembers rest
      pure (m :: ms)

/-- The responses the remote service would give during one run:
`env_token` is `os.getenv("NCFA_TOKEN")`, and each endpoint is a
function of the id string interpolated into its path. -/
structure World where
  env_token : Option String
  profile_resp : HttpResponse
  members_resp : String → HttpResponse
  stats_resp : String → HttpResponse
  rating_resp : String → HttpResponse

/-- The argument actually handed to `update_stats` / `update_peak_rating`:
the tolerant endpoints return a parsed JSON object (type hint `dict`)
or `None`. -/
def dictArgOf : Except String (Option JVal) → Option (List (String × JVal))
  | .ok (some (.obj fields)) => some fields
  | _ => none

/-- The `for i, member in enumerate(members, 1)` loop: fetch stats and
peak rating for each member in order (tolerantly) and apply both
updates.  Returns the updated members and the ordered list of request
paths issued. -/
def fetchLoop (w : World) : List ClubMember → List ClubMember × List String
  | [] => ([], [])
  | m :: rest =>
      let uid := m.user_id.pyStr
      let m1 := m.update_stats (dictArgOf (GeoGuessrClubAPI.get_user_stats uid (w.stats_resp uid)))
      let m2 := m1.update_peak_rating
        (dictArgOf (GeoGuessrClubAPI.get_user_peak_rating uid (w.rating_resp uid)))
      let (ms, trace) := fetchLoop w rest
      (m2 :: ms,
       ("/v4/stats/users/" ++ uid) :: ("/v4/ranked-system/peak-rating/" ++ uid) :: trace)

/-- The `ValueError` raised when the profile carries no usable club id. -/
def noClubMsg : String := "User is not in a club or clubId not found in profile."

/-- The `__main__` block: build the client, fetch the profile, extract
the club id, fetch the member list, run the per-member fetch loop, and
flatten every member for export.  The second component is the ordered
list of HTTP request paths issued before the run ended. -/
def mainRun (w : World) : Except String (List (List (String × JVal))) × List String :=
  match GeoGuessrClubAPI.init none w.env_token with
  | .error e => (.error e, [])
  | .ok _ =>
    match GeoGuessrClubAPI.get_profile w.profile_resp with
    | .error e => (.error e, ["/v3/profiles"])
    | .ok mprofile =>
      match extractClubId (mprofile.getD .null) with
      | .error e => (.error e, ["/v3/profiles"])
      | .ok cid =>
        if !cid.truthy then
          (.error noClubMsg, ["/v3/profiles"])
        else
          let cidStr := cid.pyStr
          let mPath := "/v4/clubs/" ++ cidStr ++ "/members"
          match GeoGuessrClubAPI.get_club_members cidStr (w.members_resp cidStr) with
          | .error e => (.error e, ["/v3/profiles", mPath])
          | .ok mbody =>
            match iterMembers (mbody.getD .null) with
            | .error e => (.error e, ["/v3/profiles", mPath])
            | .ok vs =>
              match constructMembers vs with
              | none => (.error "AttributeError: object has no attribute items",
                         ["/v3/profiles", mPath])
              | some members =>
                  let (ms, trace) := fetchLoop w members
                  (.ok (ms.map ClubMember.to_dict), ["/v3/profiles", mPath] ++ trace)

/-! ## Basic lemmas about the dict model -/

theorem lastVal_of_not_mem (k : String) (d : JVal) :
    ∀ l : List (String × JVal), k ∉ l.map Prod.fst → lastVal k d l = d := by
  intro l
  induction l generalizing d with
  | nil => intro _; rfl
  | cons p rest ih =>
      obtain ⟨p1, p2⟩ := p
      intro h
      simp only [List.map_cons, List.mem_cons] at h
      push_neg at h
      simp only [lastVal]
      rw [if_neg (fun he : p1 = k => h.1 he.symm)]
      exact ih d h.2

theorem filter_ne_key_of_not_mem (k : String) (l : List (String × JVal))
    (h : k ∉ l.map Prod.fst) : l.filter (fun p => p.1 ≠ k) = l := by
  rw [List.filter_eq_self]
  intro p hp
  simp only [decide_eq_true_eq]
  intro he
  exact h (List.mem_map.2 ⟨p, hp, he⟩)

/-- Building `dict(items)` is the identity on a list with pairwise distinct keys. -/
theorem dictOfItems_of_nodup_keys :
    ∀ l : List (String × JVal), (l.map Prod.fst).Nodup → dictOfItems l = l := by
  intro l
  induction l using dictOfItems.induct with
  | case1 => intro _; rw [dictOfItems]
  | case2 k v rest ih =>
      intro h
      simp only [List.map_cons, List.nodup_cons] at h
      rw [dictOfItems, lastVal_of_not_mem k v rest h.1,
          filter_ne_key_of_not_mem k rest h.1]
      rw [filter_ne_key_of_not_mem k rest h.1] at ih
      rw [ih h.2]

/-- Building `dict(items)` keeps exactly the keys of `items`. -/
theorem mem_keys_dictOfItems (k : String) :
    ∀ l : List (String × JVal), k ∈ (dictOfItems l).map Prod.fst ↔ k ∈ l.map Prod.fst := by
  intro l
  induction l using dictOfItems.induct with
  | case1 => simp [dictOfItems]
  | case2 k' v rest ih =>
      rw [dictOfItems]
      simp only [List.map_cons, List.mem_cons]
      rw [ih]
      constructor
      · rintro (rfl | h)
        · exact Or.inl rfl
        · rcases List.mem_map.1 h with ⟨p, hp, rfl⟩
          exact Or.inr (List.mem_map.2 ⟨p, List.mem_of_mem_filter hp, rfl⟩)
      · rintro (rfl | h)
        · exact Or.inl rfl
        · by_cases hk : k = k'
          · exact Or.inl hk
          · rcases List.mem_map.1 h with ⟨p, hp, rfl⟩
            refine Or.inr (List.mem_map.2 ⟨p, List.mem_filter.2 ⟨hp, ?_⟩, rfl⟩)
            simp only [decide_eq_true_eq]
            exact hk

/-! ## Claim theorems: update semantics and endpoint policies -/

/-- C4: for every `ClubMember` in any prior state, `update_stats(None)`
leaves `stats` as the empty mapping and `update_peak_rating(None)`
leaves `peak_rating` as the empty mapping; the fields are mappings by
construction, never null. -/
theorem C4_update_none_empty (m : ClubMember) :
    (m.update_stats none).stats = [] ∧ (m.update_peak_rating none).peak_rating = [] :=
  ⟨rfl, rfl⟩

/-- C5: for every user id and every response, `get_user_stats` and
`get_user_peak_rating` never raise: they return the parsed body exactly
on status 200 and the `None` sentinel on any other status. -/
theorem C5_tolerant_endpoints (user_id : String) (resp : HttpResponse) :
    GeoGuessrClubAPI.get_user_stats user_id resp =
      .ok (if resp.status_code = 200 then some resp.body else none) ∧
    GeoGuessrClubAPI.get_user_peak_rating user_id resp =
      .ok (if resp.status_code = 200 then some resp.body else none) := by
  constructor <;>
    · simp only [GeoGuessrClubAPI.get_user_stats, GeoGuessrClubAPI.get_user_peak_rating,
        GeoGuessrClubAPI._get]
      by_cases h : resp.status_code = 200 <;> simp [h]

/-- C6: `get_profile` and `get_club_members` return the parsed body on
status 200 and raise (the spec names it `RequestError`) on any other
status; they never return the `None` sentinel. -/
theorem C6_mandatory_endpoints (club_id : String) (resp : HttpResponse) :
    GeoGuessrClubAPI.get_profile resp =
      (if resp.status_code = 200 then .ok (some resp.body)
       else .error ("Failed to fetch " ++ "/v3/profiles" ++ ": HTTP " ++
                    toString resp.status_code)) ∧
    GeoGuessrClubAPI.get_club_members club_id resp =
      (if resp.status_code = 200 then .ok (some resp.body)
       else .error ("Failed to fetch " ++ ("/v4/clubs/" ++ club_id ++ "/members") ++
                    ": HTTP " ++ toString resp.status_code)) := by
  constructor <;>
    · simp only [GeoGuessrClubAPI.get_profile, GeoGuessrClubAPI.get_club_members,
        GeoGuessrClubAPI._get]
      by_cases h : resp.status_code = 200 <;> simp [h]

/-- C7: with the credential absent (or empty, which Python treats the
same) in both the constructor argument and the environment, client
construction fails with the configuration error, and a run in such an
environment issues no HTTP request at all (empty trace — the session is
never created). -/
theorem C7_missing_credential (arg env : Option String)
    (harg : GeoGuessrClubAPI.strOptFalsy arg = true)
    (henv : GeoGuessrClubAPI.strOptFalsy env = true) :
    GeoGuessrClubAPI.init arg env =
      .error "NCFA_TOKEN must be provided or set in environment variables" ∧
    ∀ w : World, w.env_token = env →
      mainRun w =
        (.error "NCFA_TOKEN must be provided or set in environment variables", []) := by
  have hinit : GeoGuessrClubAPI.init arg env =
      .error "NCFA_TOKEN must be provided or set in environment variables" := by
    rw [GeoGuessrClubAPI.init, harg]
    cases env with
    | none => rfl
    | some s =>
        simp only [GeoGuessrClubAPI.strOptFalsy] at henv
        simp [henv]
  refine ⟨hinit, fun w hw => ?_⟩
  have hinit2 : GeoGuessrClubAPI.init none w.env_token =
      .error "NCFA_TOKEN must be provided or set in environment variables" := by
    rw [GeoGuessrClubAPI.init]
    simp only [GeoGuessrClubAPI.strOptFalsy, hw]
    cases env with
    | none => rfl
    | some s =>
        simp only [GeoGuessrClubAPI.strOptFalsy] at henv
        simp [henv]
  rw [mainRun, hinit2]

theorem C7_missing_credential_witness :
    GeoGuessrClubAPI.init none none =
      .error "NCFA_TOKEN must be provided or set in environment variables" ∧
    mainRun
        { env_token := none, profile_resp := ⟨200, .null⟩,
          members_resp := fun _ => ⟨200, .null⟩, stats_resp := fun _ => ⟨200, .null⟩,
          rating_resp := fun _ => ⟨200, .null⟩ } =
      (.error "NCFA_TOKEN must be provided or set in environment variables", []) :=
  ⟨(C7_missing_credential none none rfl rfl).1,
   (C7_missing_credential none none rfl rfl).2 _ rfl⟩

/-- C10: constructing a `ClubMember` from a Membership Entry lacking the
`"user"` key always succeeds, with an empty user section, a `user_id`
equal to the empty string, and a `nick` accessor returning the empty
string without failing. -/
theorem C10_missing_user_key (data : List (String × JVal))
    (h : dictGet data "user" = none) :
    ∃ m : ClubMember, ClubMember.init data = some m ∧ m.raw_user = [] ∧
      m.user_id = JVal.str "" ∧ m.nick = JVal.str "" := by
  refine ⟨⟨dictOfItems (data.filter (fun p => p.1 != "user")), [], .str "", [], []⟩,
          ?_, rfl, rfl, rfl⟩
  rw [ClubMember.init, h]
  rfl

theorem C10_missing_user_key_witness :
    ∃ m : ClubMember,
      ClubMember.init [("role", JVal.str "admin")] = some m ∧ m.raw_user = [] ∧
      m.user_id = JVal.str "" ∧ m.nick = JVal.str "" :=
  C10_missing_user_key [("role", JVal.str "admin")] rfl

/-- C3: the scenario of the spec — a Membership Entry with user `u1`
(nick Alice) and role admin, stats `{"verified": {"distance": 1200}}`,
peak rating `None` — flattens to exactly the four expected dotted keys,
none of which starts with `peakRating`. -/
theorem C3_scenario :
    (ClubMember.init
        [("user", .obj [("userId", .str "u1"), ("nick", .str "Alice")]),
         ("role", .str "admin")]).map
      (fun m =>
        ((m.update_stats
            (some [("verified", JVal.obj [("distance", JVal.num 1200)])])).update_peak_rating
          none).to_dict)
      = some [("user.userId", JVal.str "u1"), ("user.nick", JVal.str "Alice"),
              ("membership.role", JVal.str "admin"),
              ("stats.verified.distance", JVal.num 1200)] ∧
    ∀ key ∈ ["user.userId", "user.nick", "membership.role", "stats.verified.distance"],
      List.isPrefixOf "peakRating".data key.data = false := by
  constructor
  · simp [ClubMember.init, ClubMember.update_stats, ClubMember.update_peak_rating,
      ClubMember.to_dict, flatten_dict, flattenItems, dictOfItems, lastVal, joinKey, dictGet]
  · decide

/-- C9: inside one section, a literal key `"a.b"` and a nested mapping
`{"a": {"b": 2}}` flatten to the same dotted path; the emitted item list
holds both leaves, `dict(items)` silently keeps the one emitted last,
no error is raised, and the flattened mapping has fewer entries than the
input has leaves. -/
theorem C9_collision_last_wins :
    flattenItems "." "" [("a.b", JVal.num 1), ("a", JVal.obj [("b", JVal.num 2)])] =
      [("a.b", JVal.num 1), ("a.b", JVal.num 2)] ∧
    flatten_dict [("a.b", JVal.num 1), ("a", JVal.obj [("b", JVal.num 2)])] =
      [("a.b", JVal.num 2)] := by
  constructor
  · simp [flattenItems, dictOfItems, lastVal, joinKey]
  · simp [flatten_dict, flattenItems, dictOfItems, lastVal, joinKey]

/-! ## Flattening of one-level mappings (C1) -/

theorem flattenItems_of_flat (sep pk : String) :
    ∀ d : List (String × JVal), (∀ p ∈ d, p.2.isObj = false) →
      flattenItems sep pk d = d.map (fun p => (joinKey pk sep p.1, p.2)) := by
  intro d
  induction d with
  | nil => intro _; rw [flattenItems]; rfl
  | cons p rest ih =>
      intro h
      obtain ⟨k, v⟩ := p
      have hv : v.isObj = false := h (k, v) (List.mem_cons_self _ _)
      have hrest : ∀ q ∈ rest, q.2.isObj = false :=
        fun q hq => h q (List.mem_cons_of_mem _ hq)
      rw [flattenItems, ih hrest, List.map_cons]
      all_goals try rfl
      all_goals
        intro fields heq
        rw [heq] at hv
        simp [JVal.isObj] at hv

theorem append_left_cancel_str (p a b : String) (h : p ++ a = p ++ b) : a = b := by
  have hd := congrArg String.data h
  simp only [String.data_append] at hd
  exact String.ext (List.append_cancel_left hd)

/-- C1: flattening a one-level mapping (no nested mapping values) under
a non-empty prefix `P` turns every pair `(k, v)` into `(P.k, v)`, and
flattening it under the empty (default) prefix returns it unchanged. -/
theorem C1_flatten_flat_input (d : List (String × JVal)) (P : String)
    (hkeys : (d.map Prod.fst).Nodup)
    (hflat : ∀ p ∈ d, p.2.isObj = false)
    (hP : P ≠ "") :
    flatten_dict d P = d.map (fun p => (P ++ "." ++ p.1, p.2)) ∧
    flatten_dict d = d := by
  constructor
  · rw [flatten_dict, flattenItems_of_flat "." P d hflat]
    have hjoin : (fun p : String × JVal => (joinKey P "." p.1, p.2)) =
        (fun p : String × JVal => (P ++ "." ++ p.1, p.2)) := by
      funext p
      simp [joinKey, hP]
    rw [hjoin]
    apply dictOfItems_of_nodup_keys
    have : (d.map (fun p : String × JVal => (P ++ "." ++ p.1, p.2))).map Prod.fst =
        (d.map Prod.fst).map (fun k => P ++ "." ++ k) := by
      simp [List.map_map, Function.comp]
    rw [this]
    exact hkeys.map (fun a b hab => append_left_cancel_str (P ++ ".") a b hab)
  · rw [flatten_dict, flattenItems_of_flat "." "" d hflat]
    have hjoin : (fun p : String × JVal => (joinKey "" "." p.1, p.2)) =
        (fun p : String × JVal => p) := by
      funext p
      simp [joinKey]
    rw [hjoin, List.map_id']
    exact dictOfItems_of_nodup_keys d hkeys

theorem C1_flatten_flat_input_witness :
    flatten_dict [("a", JVal.num 1), ("b", JVal.str "x")] "user" =
      [("a", JVal.num 1), ("b", JVal.str "x")].map
        (fun p => ("user" ++ "." ++ p.1, p.2)) ∧
    flatten_dict [("a", JVal.num 1), ("b", JVal.str "x")] =
      [("a", JVal.num 1), ("b", JVal.str "x")] :=
  C1_flatten_flat_input [("a", JVal.num 1), ("b", JVal.str "x")] "user"
    (by simp) (by simp [JVal.isObj]) (by simp)

/-! ## Key namespacing of the four sections (C2) -/

theorem flattenItems_cons_obj (sep pk k : String) (sub rest : List (String × JVal)) :
    flattenItems sep pk ((k, JVal.obj sub) :: rest) =
      dictOfItems (flattenItems sep (joinKey pk sep k) sub) ++ flattenItems sep pk rest := by
  rw [flattenItems]

theorem flattenItems_cons_not_obj (sep pk k : String) (v : JVal) (rest : List (String × JVal))
    (hv : v.isObj = false) :
    flattenItems sep pk ((k, v) :: rest) =
      (joinKey pk sep k, v) :: flattenItems sep pk rest := by
  cases v
  case obj sub => simp [JVal.isObj] at hv
  all_goals rw [flattenItems]
  all_goals first
    | rfl
    | (intro sub h; cases h)

theorem str_append_assoc (a b c : String) : a ++ b ++ c = a ++ (b ++ c) :=
  String.ext (by simp [String.data_append])

theorem append_ne_empty_left (a b : String) (ha : a ≠ "") : a ++ b ≠ "" := by
  intro h
  apply ha
  have hd := congrArg String.data h
  simp only [String.data_append] at hd
  rcases List.append_eq_nil.1 hd with ⟨h1, _⟩
  exact String.ext (by rw [h1])

/-- Every key produced by the flattening loop under a non-empty prefix
starts with that prefix followed by the separator. -/
theorem keys_flattenItems_prefixed (sep : String) :
    ∀ (pk : String) (d : List (String × JVal)), pk ≠ "" →
      ∀ key ∈ (flattenItems sep pk d).map Prod.fst, ∃ r, key = pk ++ sep ++ r := by
  intro pk0 d0
  induction pk0, d0 using flattenItems.induct sep with
  | case1 pk =>
      intro _ key hkey
      rw [flattenItems] at hkey
      simp at hkey
  | case2 pk k v rest ihv ihrest =>
      intro hpk key hkey
      have hjoin : joinKey pk sep k = pk ++ sep ++ k := by
        rw [joinKey, if_neg hpk]
      by_cases hobj : v.isObj = true
      · obtain ⟨sub, rfl⟩ : ∃ sub, v = JVal.obj sub := by
          cases v
          case obj s => exact ⟨s, rfl⟩
          all_goals simp [JVal.isObj] at hobj
        rw [flattenItems_cons_obj] at hkey
        simp only [List.map_append, List.mem_append] at hkey
        rcases hkey with hkey | hkey
        · have hne : joinKey pk sep k ≠ "" := by
            rw [hjoin]
            exact append_ne_empty_left (pk ++ sep) k (append_ne_empty_left pk sep hpk)
          rw [mem_keys_dictOfItems] at hkey
          rcases ihv hne key hkey with ⟨r, hr⟩
          refine ⟨k ++ (sep ++ r), ?_⟩
          rw [hr, hjoin]
          simp only [str_append_assoc]
        · exact ihrest hpk key hkey
      · have hv : v.isObj = false := by
          cases hb : v.isObj
          · rfl
          · exact absurd hb hobj
        rw [flattenItems_cons_not_obj sep pk k v rest hv] at hkey
        simp only [List.map_cons, List.mem_cons] at hkey
        rcases hkey with rfl | hkey
        · exact ⟨k, hjoin⟩
        · exact ihrest hpk key hkey

theorem keys_flatten_dict_prefixed (d : List (String × JVal)) (pk : String) (hpk : pk ≠ "")
    (key : String) (hkey : key ∈ (flatten_dict d pk).map Prod.fst) :
    ∃ r, key = pk ++ "." ++ r := by
  rw [flatten_dict, mem_keys_dictOfItems] at hkey
  exact keys_flattenItems_prefixed "." pk d hpk key hkey

theorem prefixed_ne (a b r₁ r₂ : String) (c₁ c₂ : Char) (t₁ t₂ : List Char)
    (ha : a.data = c₁ :: t₁) (hb : b.data = c₂ :: t₂) (hc : c₁ ≠ c₂) :
    a ++ r₁ ≠ b ++ r₂ := by
  intro h
  have hd := congrArg String.data h
  rw [String.data_append, String.data_append, ha, hb] at hd
  simp only [List.cons_append, List.cons.injEq] at hd
  exact hc hd.1

/-- Two sections flattened under prefixes with distinct first characters
can never share a key. -/
theorem flatten_sections_disjoint (d₁ d₂ : List (String × JVal)) (p₁ p₂ : String)
    (c₁ c₂ : Char) (t₁ t₂ : List Char)
    (h₁ : p₁.data = c₁ :: t₁) (h₂ : p₂.data = c₂ :: t₂) (hc : c₁ ≠ c₂) :
    ((flatten_dict d₁ p₁).map Prod.fst).Disjoint ((flatten_dict d₂ p₂).map Prod.fst) := by
  intro key hk1 hk2
  have hnil : ("" : String).data = [] := rfl
  have hp₁ : p₁ ≠ "" := by
    intro he
    rw [he, hnil] at h₁
    exact List.noConfusion h₁
  have hp₂ : p₂ ≠ "" := by
    intro he
    rw [he, hnil] at h₂
    exact List.noConfusion h₂
  rcases keys_flatten_dict_prefixed d₁ p₁ hp₁ key hk1 with ⟨r₁, rfl⟩
  rcases keys_flatten_dict_prefixed d₂ p₂ hp₂ _ hk2 with ⟨r₂, he⟩
  have ha : (p₁ ++ ".").data = c₁ :: (t₁ ++ ".".data) := by
    rw [String.data_append, h₁, List.cons_append]
  have hb : (p₂ ++ ".").data = c₂ :: (t₂ ++ ".".data) := by
    rw [String.data_append, h₂, List.cons_append]
  exact prefixed_ne (p₁ ++ ".") (p₂ ++ ".") r₁ r₂ c₁ c₂ _ _ ha hb hc he

/-- C2: for every `ClubMember`, the four flattened sections of
`to_dict` have pairwise disjoint key sets (each is namespaced under its
own prefix), so the final double-splat merge loses no key from any
section: a key appears in the merged dict exactly when it appears in
one of the sections. -/
theorem C2_sections_disjoint_lossless (m : ClubMember) :
    (((flatten_dict m.raw_user "user").map Prod.fst).Disjoint
        ((flatten_dict m.raw_membership "membership").map Prod.fst) ∧
     ((flatten_dict m.raw_user "user").map Prod.fst).Disjoint
        ((flatten_dict m.stats "stats").map Prod.fst) ∧
     ((flatten_dict m.raw_user "user").map Prod.fst).Disjoint
        ((flatten_dict m.peak_rating "peakRating").map Prod.fst) ∧
     ((flatten_dict m.raw_membership "membership").map Prod.fst).Disjoint
        ((flatten_dict m.stats "stats").map Prod.fst) ∧
     ((flatten_dict m.raw_membership "membership").map Prod.fst).Disjoint
        ((flatten_dict m.peak_rating "peakRating").map Prod.fst) ∧
     ((flatten_dict m.stats "stats").map Prod.fst).Disjoint
        ((flatten_dict m.peak_rating "peakRating").map Prod.fst)) ∧
    ∀ key, key ∈ m.to_dict.map Prod.fst ↔
      (key ∈ (flatten_dict m.raw_user "user").map Prod.fst ∨
       key ∈ (flatten_dict m.raw_membership "membership").map Prod.fst ∨
       key ∈ (flatten_dict m.stats "stats").map Prod.fst ∨
       key ∈ (flatten_dict m.peak_rating "peakRating").map Prod.fst) := by
  constructor
  · exact ⟨flatten_sections_disjoint _ _ _ _ 'u' 'm' ['s', 'e', 'r']
        ['e', 'm', 'b', 'e', 'r', 's', 'h', 'i', 'p'] (by decide) (by decide) (by decide),
      flatten_sections_disjoint _ _ _ _ 'u' 's' ['s', 'e', 'r']
        ['t', 'a', 't', 's'] (by decide) (by decide) (by decide),
      flatten_sections_disjoint _ _ _ _ 'u' 'p' ['s', 'e', 'r']
        ['e', 'a', 'k', 'R', 'a', 't', 'i', 'n', 'g'] (by decide) (by decide) (by decide),
      flatten_sections_disjoint _ _ _ _ 'm' 's' ['e', 'm', 'b', 'e', 'r', 's', 'h', 'i', 'p']
        ['t', 'a', 't', 's'] (by decide) (by decide) (by decide),
      flatten_sections_disjoint _ _ _ _ 'm' 'p' ['e', 'm', 'b', 'e', 'r', 's', 'h', 'i', 'p']
        ['e', 'a', 'k', 'R', 'a', 't', 'i', 'n', 'g'] (by decide) (by decide) (by decide),
      flatten_sections_disjoint _ _ _ _ 's' 'p' ['t', 'a', 't', 's']
        ['e', 'a', 'k', 'R', 'a', 't', 'i', 'n', 'g'] (by decide) (by decide) (by decide)⟩
  · intro key
    simp only [ClubMember.to_dict]
    rw [mem_keys_dictOfItems]
    simp [List.map_append, List.mem_append, or_assoc]

/-! ## Club-id extraction in the orchestrator (C8) -/

/-- The notion of a club identifier being reachable at
`user.club.clubId` used by the claim: every step passes through a
mapping and the final value is truthy (usable as a club id). -/
def clubIdReachable (profile : JVal) : Bool :=
  match profile with
  | .obj f =>
      match dictGet f "user" with
      | some (.obj uf) =>
          match dictGet uf "club" with
          | some (.obj cf) =>
              match dictGet cf "clubId" with
              | some v => v.truthy
              | none => false
          | _ => false
      | _ => false
  | _ => false

/-- C8 (counterexample): for the profile body `{"user": 5}` no club
identifier is reachable at `user.club.clubId`, yet the orchestrator
does not raise the no-club `ValueError` (the spec maps it to
`ConfigurationError`): the chained `.get` calls hit a non-mapping and
raise `AttributeError` instead.  It does still stop after the profile
request alone. -/
theorem C8_counterexample :
    clubIdReachable (JVal.obj [("user", JVal.num 5)]) = false ∧
    (mainRun
        { env_token := some "tok",
          profile_resp := ⟨200, JVal.obj [("user", JVal.num 5)]⟩,
          members_resp := fun _ => ⟨404, JVal.null⟩,
          stats_resp := fun _ => ⟨404, JVal.null⟩,
          rating_resp := fun _ => ⟨404, JVal.null⟩ }).1 =
      .error "AttributeError: object has no attribute get" ∧
    "AttributeError: object has no attribute get" ≠ noClubMsg ∧
    (mainRun
        { env_token := some "tok",
          profile_resp := ⟨200, JVal.obj [("user", JVal.num 5)]⟩,
          members_resp := fun _ => ⟨404, JVal.null⟩,
          stats_resp := fun _ => ⟨404, JVal.null⟩,
          rating_resp := fun _ => ⟨404, JVal.null⟩ }).2 = ["/v3/profiles"] := by
  refine ⟨rfl, rfl, ?_, rfl⟩
  intro h
  exact absurd (congrArg String.data h) (by decide)

/-- C8 (amended): with a usable credential and a 200 profile response
whose body lets the `user.club.clubId` lookup chain run through
mappings only, ending in no truthy club identifier, the orchestrator
raises the no-club `ValueError` (the spec maps it to
`ConfigurationError`) after issuing only the profile request — before
any call to `get_club_members` or any per-member fetch. -/
theorem C8_no_club_config_error (w : World) (cid : JVal)
    (htoken : GeoGuessrClubAPI.strOptFalsy w.env_token = false)
    (hstatus : w.profile_resp.status_code = 200)
    (hchain : extractClubId w.profile_resp.body = .ok cid)
    (hfalsy : cid.truthy = false) :
    mainRun w = (.error noClubMsg, ["/v3/profiles"]) := by
  obtain ⟨t, ht⟩ : ∃ t, w.env_token = some t := by
    cases he : w.env_token with
    | none =>
        rw [he] at htoken
        exact absurd htoken (by simp [GeoGuessrClubAPI.strOptFalsy])
    | some t => exact ⟨t, rfl⟩
  have htne : (t == "") = false := by
    rw [ht] at htoken
    simpa [GeoGuessrClubAPI.strOptFalsy] using htoken
  have hinit : GeoGuessrClubAPI.init none w.env_token =
      .ok ⟨[("_ncfa", t, "www.geoguessr.com")],
           [("User-Agent", "GeoStatsClub/1.0"), ("Accept", "application/json")]⟩ := by
    rw [GeoGuessrClubAPI.init, ht]
    simp [GeoGuessrClubAPI.strOptFalsy, htne]
  have hprof : GeoGuessrClubAPI.get_profile w.profile_resp = .ok (some w.profile_resp.body) := by
    simp [GeoGuessrClubAPI.get_profile, GeoGuessrClubAPI._get, hstatus]
  rw [mainRun, hinit, hprof]
  simp only [Option.getD_some]
  rw [hchain]
  simp [hfalsy]

theorem C8_no_club_config_error_witness :
    mainRun
        { env_token := some "tok",
          profile_resp := ⟨200, JVal.obj [("user", JVal.obj [])]⟩,
          members_resp := fun _ => ⟨404, JVal.null⟩,
          stats_resp := fun _ => ⟨404, JVal.null⟩,
          rating_resp := fun _ => ⟨404, JVal.null⟩ } =
      (.error noClubMsg, ["/v3/profiles"]) :=
  C8_no_club_config_error _ JVal.null rfl rfl rfl rfl
